import Mathlib

/-!
Verification of the CS130 graphics-pipeline specification against the
repository source.  The repository ships only the header `driver_state.h`
(declarations, data members and documentation comments); the function bodies
of `driver_state.cpp` are not present under `src/`, so the pipeline
operations are modelled from the specification, faithfully to its words,
over exact rational arithmetic (`ℚ` stands in for `float`; the `FLT_MAX`
sentinel is modelled as its exact rational value).
-/

namespace Pipeline

/-- Interpolation rule per attribute float, from the header's `interp_type`
enumeration: `flat`, `smooth` (perspective-correct) and `noperspective`
(image-space barycentric). -/
inductive interp_type where
  | flat
  | smooth
  | noperspective
deriving DecidableEq, Repr

/-- A 4-component homogeneous vector, modelling `vec4`. -/
structure vec4 where
  x : ℚ
  y : ℚ
  z : ℚ
  w : ℚ
deriving DecidableEq, Repr

/-- A packed RGBA pixel, one byte per channel, modelling `pixel`. -/
structure pixel where
  r : Nat
  g : Nat
  b : Nat
  a : Nat
deriving DecidableEq, Repr

/-- Opaque black: channels 0,0,0 and opaque alpha. -/
def black : pixel := ⟨0, 0, 0, 255⟩

/-- `FLT_MAX`, the largest finite IEEE-754 single-precision value,
as an exact rational: (2^24 - 1) * 2^104. -/
def FLT_MAX : ℚ := (2 ^ 24 - 1) * 2 ^ 104

/-- A geometry vertex (vertex-shader output, clipper and rasterizer input):
a homogeneous clip-space position plus an owned attribute vector,
modelling `data_geometry`. -/
structure data_geometry where
  gl_Position : vec4
  data : List ℚ
deriving DecidableEq, Repr

/-- A triangle of three geometry vertices, modelling the
`const data_geometry* in[3]` arrays passed through the pipeline. -/
structure tri_geo where
  v0 : data_geometry
  v1 : data_geometry
  v2 : data_geometry
deriving DecidableEq, Repr

/-- Error kinds of the specification's error-handling design. -/
inductive render_error where
  | INVALID_DIMENSIONS
  | UNINITIALIZED
  | INVALID_RENDER_TYPE
  | OUT_OF_RANGE_INDEX
  | OUT_OF_MEMORY
deriving DecidableEq, Repr

/-- The four primitive modes of `render_type`. -/
inductive render_type where
  | triangle
  | indexed
  | fan
  | strip
deriving DecidableEq, Repr

/-- The driver state, modelling `driver_state` from the header: vertex and
index streams, uniform block, interpolation rules, framebuffer (color and
depth), and the two shader callbacks (modelled as total functions from the
attribute data and uniform data). -/
structure driver_state where
  vertex_data : List ℚ
  num_vertices : Int
  floats_per_vertex : Int
  index_data : List Int
  num_triangles : Int
  uniform_data : List ℚ
  interp_rules : List interp_type
  image_width : Int
  image_height : Int
  image_len : Int
  image_color : List pixel
  image_depth : List ℚ
  vertex_shader : List ℚ → List ℚ → data_geometry
  fragment_shader : List ℚ → List ℚ → vec4

/-- The fields of the driver state that the clipper and rasterizer read
(they mutate only the framebuffer contents).  Bundling them lets the
per-triangle operations be stated as functions of this configuration. -/
structure raster_config where
  floats_per_vertex : Int
  interp_rules : List interp_type
  uniform_data : List ℚ
  image_width : Int
  image_height : Int
  fragment_shader : List ℚ → List ℚ → vec4

/-- Projection of a driver state onto the configuration read by the
clipper and rasterizer. -/
def config (s : driver_state) : raster_config :=
  { floats_per_vertex := s.floats_per_vertex
    interp_rules := s.interp_rules
    uniform_data := s.uniform_data
    image_width := s.image_width
    image_height := s.image_height
    fragment_shader := s.fragment_shader }

/-- Modelled from the spec: the body of `set_render_black` is not in `src/`
(only its declaration in `driver_state.h`).  Sets each pixel in the
`image_color` array to black. -/
def set_render_black (s : driver_state) : driver_state :=
  { s with image_color := List.replicate s.image_len.toNat black }

/-- Modelled from the spec: the body of `init_image_depth` is not in `src/`
(only its declaration in `driver_state.h`).  Sets each element of
`image_depth` to `FLT_MAX`. -/
def init_image_depth (s : driver_state) : driver_state :=
  { s with image_depth := List.replicate s.image_len.toNat FLT_MAX }

/-- Modelled from the spec: the body of `initialize_render` is not in `src/`
(only its declaration in `driver_state.h`).  With W ≥ 1 and H ≥ 1 it stores
W, H and W·H and fills the color buffer with opaque black and the depth
buffer with the `FLT_MAX` sentinel; it fails with `INVALID_DIMENSIONS`,
before any framebuffer mutation, if W ≤ 0 or H ≤ 0.  The C++ function
mutates `state` in place; the model returns the updated state together with
an optional error. -/
def initialize_render (s : driver_state) (width height : Int) :
    driver_state × Option render_error :=
  if width ≤ 0 ∨ height ≤ 0 then
    (s, some render_error.INVALID_DIMENSIONS)
  else
    (init_image_depth (set_render_black
      { s with image_width := width, image_height := height,
               image_len := width * height }), none)

/-!  Attribute interpolation (spec section 4.4 step 5, header helpers
`interpolate_fragment_at` and `convert_from_screen`). -/

/-- Modelled from the spec: the body of `interpolate_data` is not in `src/`.
Linear interpolation `(1 - weight) * data0 + weight * data1`. -/
def interpolate_data (weight data0 data1 : ℚ) : ℚ :=
  (1 - weight) * data0 + weight * data1

/-- Modelled from the spec: the body of `convert_from_screen` is not in
`src/`.  Converts screen-space barycentric weights (α, β, γ) to world-space
weights (α/w₀)/S, (β/w₁)/S, (γ/w₂)/S with S = α/w₀ + β/w₁ + γ/w₂, the w's
being the vertices' homogeneous components. -/
def convert_from_screen (screen_bary : ℚ × ℚ × ℚ) (t : tri_geo) : ℚ × ℚ × ℚ :=
  let aw := screen_bary.1 / t.v0.gl_Position.w
  let bw := screen_bary.2.1 / t.v1.gl_Position.w
  let cw := screen_bary.2.2 / t.v2.gl_Position.w
  let S := aw + bw + cw
  (aw / S, bw / S, cw / S)

/-- The attribute value at index `index` obtained by combining the three
vertex attributes with the given (world-space) barycentric weights. -/
def interpolate_world (index : Nat) (t : tri_geo) (bary : ℚ × ℚ × ℚ) : ℚ :=
  bary.1 * t.v0.data.getD index 0 + bary.2.1 * t.v1.data.getD index 0 +
    bary.2.2 * t.v2.data.getD index 0

/-- Modelled from the spec: the body of `interpolate_fragment_at` is not in
`src/`.  Computes the interpolated attribute at float `index` from the
screen-space barycentric weights, according to the interpolation rule:
FLAT takes the first vertex's value, SMOOTH combines with the world-space
weights obtained by `convert_from_screen`, NOPERSPECTIVE combines with the
screen-space weights directly. -/
def interpolate_fragment_at (cfg : raster_config) (index : Nat) (t : tri_geo)
    (bary : ℚ × ℚ × ℚ) : ℚ :=
  match cfg.interp_rules.getD index interp_type.flat with
  | interp_type.flat => t.v0.data.getD index 0
  | interp_type.smooth => interpolate_world index t (convert_from_screen bary t)
  | interp_type.noperspective => interpolate_world index t bary

/-!  Rasterizer (spec section 4.4, header helpers `calc_pixel_coords`,
`calc_min_coord`, `calc_max_coord`, `is_pixel_inside`, `get_pixel_color`,
`calc_z_coords`, `calc_depth_at`). -/

/-- Modelled from the spec: the body of `calc_pixel_coords` is not in
`src/`.  Perspective divide and viewport transform of one vertex:
i = (W/2)(x/w) + (W/2) − ½ and j = (H/2)(y/w) + (H/2) − ½. -/
def calc_pixel_coords (cfg : raster_config) (v : data_geometry) : ℚ × ℚ :=
  (((cfg.image_width : ℚ) / 2) * (v.gl_Position.x / v.gl_Position.w) +
     (cfg.image_width : ℚ) / 2 - 1 / 2,
   ((cfg.image_height : ℚ) / 2) * (v.gl_Position.y / v.gl_Position.w) +
     (cfg.image_height : ℚ) / 2 - 1 / 2)

/-- Twice the signed area of the triangle on points p0, p1, p2, halved:
½·((x₁−x₀)(y₂−y₀) − (x₂−x₀)(y₁−y₀)), the signed-area formulation of the
spec's edge function. -/
def signed_area (p0 p1 p2 : ℚ × ℚ) : ℚ :=
  ((p1.1 - p0.1) * (p2.2 - p0.2) - (p2.1 - p0.1) * (p1.2 - p0.2)) / 2

/-- Screen-space barycentric weights of the point `p` with respect to the
screen positions `p0 p1 p2` of the triangle's vertices: each sub-area over
the full area. -/
def calc_bary_at (p0 p1 p2 p : ℚ × ℚ) : ℚ × ℚ × ℚ :=
  let k := signed_area p0 p1 p2
  (signed_area p p1 p2 / k, signed_area p0 p p2 / k, signed_area p0 p1 p / k)

/-- Modelled from the spec: the body of `is_pixel_inside` is not in `src/`.
A pixel is covered iff all three barycentric weights are nonnegative. -/
def is_pixel_inside (bary : ℚ × ℚ × ℚ) : Bool :=
  0 ≤ bary.1 && 0 ≤ bary.2.1 && 0 ≤ bary.2.2

/-- Modelled from the spec: the body of `calc_z_coords` is not in `src/`.
The post-divide depth zᵢ/wᵢ of each vertex. -/
def calc_z_coords (t : tri_geo) : ℚ × ℚ × ℚ :=
  (t.v0.gl_Position.z / t.v0.gl_Position.w,
   t.v1.gl_Position.z / t.v1.gl_Position.w,
   t.v2.gl_Position.z / t.v2.gl_Position.w)

/-- Modelled from the spec: the body of `calc_depth_at` is not in `src/`.
The interpolated depth at a pixel: the post-divide vertex depths combined
linearly with the screen-space barycentric weights. -/
def calc_depth_at (z : ℚ × ℚ × ℚ) (bary : ℚ × ℚ × ℚ) : ℚ :=
  bary.1 * z.1 + bary.2.1 * z.2.1 + bary.2.2 * z.2.2

/-- Conversion of one color channel to a byte: clamp to [0,1], scale by
255, round to nearest. -/
def channel_to_byte (c : ℚ) : Nat :=
  (⌊max 0 (min 1 c) * 255 + 1 / 2⌋).toNat

/-- Modelled from the spec: the body of `get_pixel_color` is not in `src/`.
Fills the fragment's data array with the interpolated attributes, calls the
fragment shader, and packs the resulting RGBA color (clamped and scaled)
into a pixel. -/
def get_pixel_color (cfg : raster_config) (t : tri_geo) (bary : ℚ × ℚ × ℚ) :
    pixel :=
  let frag_data := (List.range cfg.floats_per_vertex.toNat).map
    (fun i => interpolate_fragment_at cfg i t bary)
  let c := cfg.fragment_shader frag_data cfg.uniform_data
  ⟨channel_to_byte c.x, channel_to_byte c.y, channel_to_byte c.z,
    channel_to_byte c.w⟩

/-- The z-buffer update at one pixel: the incoming fragment (color, depth)
is skipped when its depth is strictly greater than the stored depth, and
otherwise overwrites both buffers (spec section 4.4 step 4). -/
def depth_write (cur incoming : pixel × ℚ) : pixel × ℚ :=
  if incoming.2 > cur.2 then cur else incoming

/-- The list of integers from `lo` to `hi` inclusive (empty when
`hi < lo`). -/
def int_range (lo hi : Int) : List Int :=
  (List.range (hi + 1 - lo).toNat).map (fun k => lo + (k : Int))

/-- One candidate pixel of the rasterization loop: compute the barycentric
weights at the pixel center, and if covered, run the depth test
(`depth_write`) against the stored depth at index q·W + p and write the
pixel color and depth on pass. -/
def raster_step (cfg : raster_config) (t : tri_geo) (p0 p1 p2 : ℚ × ℚ)
    (buf : List pixel × List ℚ) (pq : Int × Int) : List pixel × List ℚ :=
  let bary := calc_bary_at p0 p1 p2 ((pq.1 : ℚ), (pq.2 : ℚ))
  if is_pixel_inside bary then
    let idx := (pq.2 * cfg.image_width + pq.1).toNat
    let z := calc_depth_at (calc_z_coords t) bary
    let col := get_pixel_color cfg t bary
    let new := depth_write (buf.1.getD idx black, buf.2.getD idx FLT_MAX)
      (col, z)
    (buf.1.set idx new.1, buf.2.set idx new.2)
  else buf

/-- Modelled from the spec: the body of `rasterize_triangle` is not in
`src/` (only its declaration in `driver_state.h`).  Scan-converts one
clip-space triangle: viewport transform of the three vertices, bounding box
clamped to the image, barycentric coverage test at each pixel center of the
box, depth test and framebuffer write per covered pixel (triangles of zero
signed area are skipped). -/
def rasterize_core (cfg : raster_config) (buf : List pixel × List ℚ)
    (t : tri_geo) : List pixel × List ℚ :=
  let p0 := calc_pixel_coords cfg t.v0
  let p1 := calc_pixel_coords cfg t.v1
  let p2 := calc_pixel_coords cfg t.v2
  if signed_area p0 p1 p2 = 0 then buf
  else
    let min_i := max 0 ⌊min p0.1 (min p1.1 p2.1)⌋
    let max_i := min (cfg.image_width - 1) ⌈max p0.1 (max p1.1 p2.1)⌉
    let min_j := max 0 ⌊min p0.2 (min p1.2 p2.2)⌋
    let max_j := min (cfg.image_height - 1) ⌈max p0.2 (max p1.2 p2.2)⌉
    let pixels := (int_range min_j max_j).flatMap
      (fun q => (int_range min_i max_i).map (fun p => (p, q)))
    pixels.foldl (raster_step cfg t p0 p1 p2) buf

/-- Modelled from the spec: `rasterize_triangle` on the driver state; only
the framebuffer contents change. -/
def rasterize_triangle (s : driver_state) (t : tri_geo) : driver_state :=
  { s with
    image_color := (rasterize_core (config s) (s.image_color, s.image_depth) t).1
    image_depth := (rasterize_core (config s) (s.image_color, s.image_depth) t).2 }

/-!  Clipper (spec section 4.3, header helpers `all_inside`, `all_outside`,
`create_triangle_2_out`, `create_triangle_2_in`). -/

/-- The value of the clipping-plane expression for face 0..5 at a vertex,
chosen so that INSIDE means the value is ≥ 0: face 0 is x ≥ −w, face 1 is
x ≤ +w, face 2 is y ≥ −w, face 3 is y ≤ +w, face 4 is z ≥ −w, face 5 is
z ≤ +w. -/
def plane_value (face : Nat) (v : vec4) : ℚ :=
  match face with
  | 0 => v.x + v.w
  | 1 => v.w - v.x
  | 2 => v.y + v.w
  | 3 => v.w - v.y
  | 4 => v.z + v.w
  | _ => v.w - v.z

/-- A vertex is inside the half-space of a face when the plane expression is
nonnegative; a vertex exactly on the plane counts as inside. -/
def inside_face (face : Nat) (v : vec4) : Bool :=
  0 ≤ plane_value face v

/-- Linear combination of two homogeneous positions with weight `t`:
(1−t)·a + t·b, componentwise. -/
def lerp_vec4 (t : ℚ) (a b : vec4) : vec4 :=
  ⟨interpolate_data t a.x b.x, interpolate_data t a.y b.y,
   interpolate_data t a.z b.z, interpolate_data t a.w b.w⟩

/-- Modelled from the spec: the clip-vertex construction inside
`create_triangle_2_out` and `create_triangle_2_in` is not in `src/`.
For the edge from `a` to `b` against the face's plane, solve t where the
plane expression zeroes; the new vertex position is (1−t)·a.pos + t·b.pos,
and each attribute is taken from the triangle's first vertex `first` when
its rule is FLAT and interpolated linearly in clip space with weight t
otherwise. -/
def clip_vertex (cfg : raster_config) (first a b : data_geometry)
    (face : Nat) : data_geometry :=
  let pa := plane_value face a.gl_Position
  let pb := plane_value face b.gl_Position
  let t := pa / (pa - pb)
  { gl_Position := lerp_vec4 t a.gl_Position b.gl_Position
    data := (List.range cfg.floats_per_vertex.toNat).map (fun i =>
      match cfg.interp_rules.getD i interp_type.flat with
      | interp_type.flat => first.data.getD i 0
      | _ => interpolate_data t (a.data.getD i 0) (b.data.getD i 0)) }

/-- Modelled from the spec: the single-plane clipping step of
`clip_triangle` is not in `src/`.  Classify the three vertices against the
face's half-space and emit: the same triangle when all are inside; nothing
when all are outside; one triangle {IN, P₁, P₂} when one vertex is inside;
two triangles {IN₀, IN₁, P₁} and {IN₀, P₁, P₀} when two are inside, where
P₁ is the intersection of edge (IN₁, OUT) and P₀ of edge (IN₀, OUT), the
inside vertices kept in index order. -/
def clip_one (cfg : raster_config) (t : tri_geo) (face : Nat) :
    List tri_geo :=
  let ia := inside_face face t.v0.gl_Position
  let ib := inside_face face t.v1.gl_Position
  let ic := inside_face face t.v2.gl_Position
  match ia, ib, ic with
  | true, true, true => [t]
  | false, false, false => []
  | true, false, false =>
      [⟨t.v0, clip_vertex cfg t.v0 t.v0 t.v1 face,
        clip_vertex cfg t.v0 t.v0 t.v2 face⟩]
  | false, true, false =>
      [⟨t.v1, clip_vertex cfg t.v0 t.v1 t.v2 face,
        clip_vertex cfg t.v0 t.v1 t.v0 face⟩]
  | false, false, true =>
      [⟨t.v2, clip_vertex cfg t.v0 t.v2 t.v0 face,
        clip_vertex cfg t.v0 t.v2 t.v1 face⟩]
  | true, true, false =>
      [⟨t.v0, t.v1, clip_vertex cfg t.v0 t.v1 t.v2 face⟩,
       ⟨t.v0, clip_vertex cfg t.v0 t.v1 t.v2 face,
        clip_vertex cfg t.v0 t.v0 t.v2 face⟩]
  | true, false, true =>
      [⟨t.v0, t.v2, clip_vertex cfg t.v0 t.v2 t.v1 face⟩,
       ⟨t.v0, clip_vertex cfg t.v0 t.v2 t.v1 face,
        clip_vertex cfg t.v0 t.v0 t.v1 face⟩]
  | false, true, true =>
      [⟨t.v1, t.v2, clip_vertex cfg t.v0 t.v2 t.v0 face⟩,
       ⟨t.v1, clip_vertex cfg t.v0 t.v2 t.v0 face,
        clip_vertex cfg t.v0 t.v1 t.v0 face⟩]

/-- Recursion of the clipper over the remaining faces: with no face left
the triangle is delivered as is; otherwise the triangles of the
single-plane step at `face` are each clipped recursively at face + 1. -/
def clip_deliveries_aux (cfg : raster_config) (t : tri_geo) :
    Nat → Nat → List tri_geo
  | 0, _ => [t]
  | remaining + 1, face =>
      (clip_one cfg t face).flatMap
        (fun u => clip_deliveries_aux cfg u remaining (face + 1))

/-- Modelled from the spec: the recursion of `clip_triangle` is not in
`src/`.  The list of triangles that clipping starting at `face` delivers to
the rasterizer: when face = 6 the triangle itself (the call is passed on to
`rasterize_triangle`), otherwise the triangles of the single-plane step
each clipped recursively at face + 1; the recursion depth is the number
6 − face of faces still to clip against. -/
def clip_deliveries (cfg : raster_config) (t : tri_geo) (face : Nat) :
    List tri_geo :=
  clip_deliveries_aux cfg t (6 - face) face

/-- Modelled from the spec: the body of `clip_triangle` is not in `src/`
(only its declaration in `driver_state.h`).  Clips the triangle against
faces `face`..5 and rasterizes every delivered triangle, in order, into the
driver state's framebuffer. -/
def clip_triangle (s : driver_state) (t : tri_geo) (face : Nat) :
    driver_state :=
  (clip_deliveries (config s) t face).foldl rasterize_triangle s

/-!  Primitive assembly and the render entry point (spec section 4.2,
header helpers `fill_data_geo_triangle`, `fill_data_geos_indexed`,
`fill_data_geos_fan`, `fill_data_geos_strip`). -/

/-- The attribute slice of vertex `i` in the interleaved `vertex_data`
array: `floats_per_vertex` floats starting at i·floats_per_vertex. -/
def vertex_in (s : driver_state) (i : Nat) : List ℚ :=
  (s.vertex_data.drop (i * s.floats_per_vertex.toNat)).take
    s.floats_per_vertex.toNat

/-- The geometry vertex produced by running the vertex shader on vertex
`i`'s data and the uniform data. -/
def shaded (s : driver_state) (i : Nat) : data_geometry :=
  s.vertex_shader (vertex_in s i) s.uniform_data

/-- Modelled from the spec: the assembly loop of `render` is not in `src/`.
The triangles assembled from the vertex stream under each primitive mode:
LIST emits (3k, 3k+1, 3k+2) for ⌊N/3⌋ triangles, INDEXED emits the index
triples of `index_data`, FAN emits (0, k+1, k+2) and STRIP emits
(k, k+1, k+2), each for N − 2 triangles. -/
def assembled_triangles (s : driver_state) : render_type → List tri_geo
  | render_type.triangle =>
      (List.range (s.num_vertices.toNat / 3)).map (fun k =>
        ⟨shaded s (3 * k), shaded s (3 * k + 1), shaded s (3 * k + 2)⟩)
  | render_type.indexed =>
      (List.range s.num_triangles.toNat).map (fun k =>
        ⟨shaded s (s.index_data.getD (3 * k) 0).toNat,
         shaded s (s.index_data.getD (3 * k + 1) 0).toNat,
         shaded s (s.index_data.getD (3 * k + 2) 0).toNat⟩)
  | render_type.fan =>
      (List.range (s.num_vertices.toNat - 2)).map (fun k =>
        ⟨shaded s 0, shaded s (k + 1), shaded s (k + 2)⟩)
  | render_type.strip =>
      (List.range (s.num_vertices.toNat - 2)).map (fun k =>
        ⟨shaded s k, shaded s (k + 1), shaded s (k + 2)⟩)

/-- Modelled from the spec: the body of `render` is not in `src/` (only its
declaration in `driver_state.h`).  Assembles the triangles of the requested
primitive mode, runs the vertex shader on their vertices, and feeds each
triangle in order to the clipper at face 0. -/
def render (s : driver_state) (ty : render_type) : driver_state :=
  (assembled_triangles s ty).foldl (fun st t => clip_triangle st t 0) s

/-- The per-vertex attribute slices of the triangle-list stream equivalent
to a FAN, three slices per fan triangle: for each of the first `n` fan
triangles, the slices of vertices 0, k+1 and k+2. -/
def fan_list_chunks (s : driver_state) : Nat → List (List ℚ)
  | 0 => []
  | n + 1 =>
      fan_list_chunks s n ++
        [vertex_in s 0, vertex_in s (n + 1), vertex_in s (n + 2)]

/-- Following the spec's words for the primitive-mode equivalence: the
driver state whose vertex stream lists, as explicit triangles
(v₀,v₁,v₂), (v₀,v₂,v₃), …, (v₀,v_{N−2},v_{N−1}), the triangles of the FAN
over the original stream; rendering it with the triangle-list type is the
reference that FAN rendering is compared against. -/
def fan_to_list_state (s : driver_state) : driver_state :=
  { s with
    vertex_data := (fan_list_chunks s (s.num_vertices.toNat - 2)).flatten
    num_vertices := 3 * (s.num_vertices - 2) }

/-!  Raw view of the data members of `driver_state` for the
default-construction claim.  Pointers (data pointers and the two function
pointers) are modelled as machine addresses (`Nat`, with 0 for null). -/

/-- The data members of `driver_state` with pointers as raw addresses.
From the header: every data pointer and count carries an in-class
initializer (`= 0` or `= {}`), while `vertex_shader` and `fragment_shader`
are declared without any initializer. -/
structure driver_state_members where
  vertex_data : Nat
  num_vertices : Int
  floats_per_vertex : Int
  index_data : Nat
  num_triangles : Int
  uniform_data : Nat
  image_width : Int
  image_height : Int
  image_len : Int
  image_color : Nat
  image_depth : Nat
  vertex_shader : Nat
  fragment_shader : Nat
deriving DecidableEq, Repr

/-- Modelled from the spec: the body of the `driver_state` constructor is
not in `src/`; the header's in-class member initializers determine every
data member except `vertex_shader` and `fragment_shader`, which have no
initializer and so hold indeterminate values after default construction —
modelled by the arbitrary addresses `vs_junk` and `fs_junk`. -/
def default_driver_state (vs_junk fs_junk : Nat) : driver_state_members :=
  { vertex_data := 0
    num_vertices := 0
    floats_per_vertex := 0
    index_data := 0
    num_triangles := 0
    uniform_data := 0
    image_width := 0
    image_height := 0
    image_len := 0
    image_color := 0
    image_depth := 0
    vertex_shader := vs_junk
    fragment_shader := fs_junk }

/-!  Concrete example inputs used by witnesses and counterexamples. -/

/-- A configuration with one attribute float interpolated SMOOTH, on a
4 × 4 image, with a fragment shader returning opaque white. -/
def smooth_cfg : raster_config :=
  ⟨1, [interp_type.smooth], [], 4, 4, fun _ _ => ⟨1, 1, 1, 1⟩⟩

/-- A triangle with distinct homogeneous w components 1, 2, 4 and attribute
values 10, 20, 30. -/
def smooth_tri : tri_geo :=
  ⟨⟨⟨0, 0, 0, 1⟩, [10]⟩, ⟨⟨2, 0, 0, 2⟩, [20]⟩, ⟨⟨0, 4, 0, 4⟩, [30]⟩⟩

/-- A configuration with one attribute float interpolated FLAT, on a 4 × 4
image, with a fragment shader returning opaque white. -/
def flat_cfg : raster_config :=
  ⟨1, [interp_type.flat], [], 4, 4, fun _ _ => ⟨1, 1, 1, 1⟩⟩

/-- A triangle whose first vertex lies outside face 0 (x < −w) while the
other two vertices lie inside every face, with FLAT attribute values 10,
20, 30 at the three vertices. -/
def flat_clip_tri : tri_geo :=
  ⟨⟨⟨-2, 0, 0, 1⟩, [10]⟩, ⟨⟨1, 0, 0, 1⟩, [20]⟩, ⟨⟨0, 1, 0, 1⟩, [30]⟩⟩

/-- The first triangle that clipping `flat_clip_tri` against face 0
produces: {IN₀, IN₁, P₁} = {v1, v2, P₁}, its first vertex the ORIGINAL
SECOND vertex (attribute 20), with P₁ carrying the FLAT value 10 of the
clip input's first vertex. -/
def flat_clipped_tri1 : tri_geo :=
  ⟨⟨⟨1, 0, 0, 1⟩, [20]⟩, ⟨⟨0, 1, 0, 1⟩, [30]⟩, ⟨⟨-1, 1 / 2, 0, 1⟩, [10]⟩⟩

/-- The second triangle that clipping `flat_clip_tri` against face 0
produces: {IN₀, P₁, P₀} = {v1, P₁, P₀}. -/
def flat_clipped_tri2 : tri_geo :=
  ⟨⟨⟨1, 0, 0, 1⟩, [20]⟩, ⟨⟨-1, 1 / 2, 0, 1⟩, [10]⟩, ⟨⟨-1, 0, 0, 1⟩, [10]⟩⟩

/-- A triangle whose three vertices all lie inside the canonical view
volume (vertex 0 strictly, vertices 1 and 2 touching faces). -/
def inside_tri : tri_geo :=
  ⟨⟨⟨0, 0, 0, 1⟩, [1]⟩, ⟨⟨2, 0, 0, 2⟩, [2]⟩, ⟨⟨0, 2, 0, 2⟩, [3]⟩⟩

/-- A driver state with a 4 × 4 initialized framebuffer, one FLAT
attribute float per vertex, a pass-through vertex shader and a constant
red fragment shader. -/
def base_state : driver_state :=
  ⟨[], 0, 1, [], 0, [], [interp_type.flat], 4, 4, 16,
   List.replicate 16 black, List.replicate 16 FLT_MAX,
   fun d _ => ⟨⟨0, 0, 0, 1⟩, d⟩, fun _ _ => ⟨1, 0, 0, 1⟩⟩

/-- A driver state holding a three-vertex fan (one attribute float per
vertex) over a 4 × 4 initialized framebuffer. -/
def fan_state : driver_state :=
  ⟨[5, 6, 7], 3, 1, [], 0, [], [interp_type.flat], 4, 4, 16,
   List.replicate 16 black, List.replicate 16 FLT_MAX,
   fun d _ => ⟨⟨d.getD 0 0, 0, 0, 1⟩, d⟩, fun _ _ => ⟨1, 0, 0, 1⟩⟩

end Pipeline

namespace Pipeline

/-!  Claim theorems, preceded by shared helper lemmas. -/

/-- The z-buffer update leaves the stored pair among the initial pair and
the fragments seen so far. -/
theorem depth_write_foldl_mem (c : pixel × ℚ) (l : List (pixel × ℚ)) :
    l.foldl depth_write c ∈ c :: l := by
  induction l generalizing c with
  | nil => simp
  | cons g t ih =>
      rw [List.foldl_cons]
      rcases List.mem_cons.mp (ih (depth_write c g)) with h | h
      · rw [h]
        unfold depth_write
        by_cases hgt : g.2 > c.2
        · simp [hgt]
        · simp [hgt]
      · exact List.mem_cons_of_mem _ (List.mem_cons_of_mem _ h)

/-- Fragments whose depth is strictly greater than the stored depth are all
skipped by the z-buffer update. -/
theorem depth_write_foldl_skip (c : pixel × ℚ) (l : List (pixel × ℚ))
    (h : ∀ g ∈ l, c.2 < g.2) : l.foldl depth_write c = c := by
  induction l with
  | nil => rfl
  | cons g t ih =>
      rw [List.foldl_cons]
      have hg : depth_write c g = c := by
        unfold depth_write
        rw [if_pos (h g (List.mem_cons_self g t))]
      rw [hg]
      exact ih (fun g' hg' => h g' (List.mem_cons_of_mem _ hg'))

/-- Claim C2: after `initialize_render` with W ≥ 1 and H ≥ 1, every entry
of the color buffer equals opaque black and every entry of the depth buffer
equals the `FLT_MAX` sentinel (and no error is reported). -/
theorem C2_initialize_render_fills_black_and_sentinel
    (s : driver_state) (w h : Int) (hw : 1 ≤ w) (hh : 1 ≤ h) :
    (initialize_render s w h).2 = none ∧
    (∀ c ∈ ((initialize_render s w h).1).image_color, c = black) ∧
    (∀ d ∈ ((initialize_render s w h).1).image_depth, d = FLT_MAX) := by
  have hcond : ¬(w ≤ 0 ∨ h ≤ 0) := by omega
  refine ⟨by simp [initialize_render, hcond], ?_, ?_⟩ <;>
  · intro x hx
    simp only [initialize_render, hcond, if_false, init_image_depth,
      set_render_black] at hx
    exact List.eq_of_mem_replicate hx

/-- Claim C2 witness at W = 2, H = 3 on a state with empty buffers. -/
theorem C2_witness :
    (initialize_render
        ⟨[], 0, 0, [], 0, [], [], 0, 0, 0, [], [],
         fun _ _ => ⟨⟨0, 0, 0, 1⟩, []⟩, fun _ _ => ⟨0, 0, 0, 1⟩⟩ 2 3).2 =
      none ∧
    (∀ c ∈ ((initialize_render
        ⟨[], 0, 0, [], 0, [], [], 0, 0, 0, [], [],
         fun _ _ => ⟨⟨0, 0, 0, 1⟩, []⟩, fun _ _ => ⟨0, 0, 0, 1⟩⟩ 2 3).1).image_color,
      c = black) ∧
    (∀ d ∈ ((initialize_render
        ⟨[], 0, 0, [], 0, [], [], 0, 0, 0, [], [],
         fun _ _ => ⟨⟨0, 0, 0, 1⟩, []⟩, fun _ _ => ⟨0, 0, 0, 1⟩⟩ 2 3).1).image_depth,
      d = FLT_MAX) :=
  C2_initialize_render_fills_black_and_sentinel _ 2 3 (by decide) (by decide)

/-- Claim C8: `initialize_render` fails with `INVALID_DIMENSIONS` whenever
W ≤ 0 or H ≤ 0, and the error is surfaced before any framebuffer mutation:
the color and depth buffers are unchanged. -/
theorem C8_initialize_render_invalid_dimensions
    (s : driver_state) (w h : Int) (hwh : w ≤ 0 ∨ h ≤ 0) :
    (initialize_render s w h).2 = some render_error.INVALID_DIMENSIONS ∧
    ((initialize_render s w h).1).image_color = s.image_color ∧
    ((initialize_render s w h).1).image_depth = s.image_depth := by
  simp only [initialize_render, if_pos hwh]
  exact ⟨trivial, trivial, trivial⟩

/-- Claim C8 witness at W = 0, H = 5 on a state with a one-pixel buffer. -/
theorem C8_witness :
    (initialize_render
        ⟨[], 0, 0, [], 0, [], [], 1, 1, 1, [black], [FLT_MAX],
         fun _ _ => ⟨⟨0, 0, 0, 1⟩, []⟩, fun _ _ => ⟨0, 0, 0, 1⟩⟩ 0 5).2 =
      some render_error.INVALID_DIMENSIONS ∧
    ((initialize_render
        ⟨[], 0, 0, [], 0, [], [], 1, 1, 1, [black], [FLT_MAX],
         fun _ _ => ⟨⟨0, 0, 0, 1⟩, []⟩, fun _ _ => ⟨0, 0, 0, 1⟩⟩ 0 5).1).image_color =
      [black] ∧
    ((initialize_render
        ⟨[], 0, 0, [], 0, [], [], 1, 1, 1, [black], [FLT_MAX],
         fun _ _ => ⟨⟨0, 0, 0, 1⟩, []⟩, fun _ _ => ⟨0, 0, 0, 1⟩⟩ 0 5).1).image_depth =
      [FLT_MAX] :=
  C8_initialize_render_invalid_dimensions _ 0 5 (Or.inl (by decide))

/-- Claim C9: every default-constructed `driver_state` has null data
pointers and zero counts, but the shader members have no initializer and
hold indeterminate values (they equal whatever junk the construction left),
so a null-pointer check cannot reliably detect unset shaders: some
indeterminate value is nonnull. -/
theorem C9_default_construction
    (vs_junk fs_junk : Nat) :
    (default_driver_state vs_junk fs_junk).vertex_data = 0 ∧
    (default_driver_state vs_junk fs_junk).index_data = 0 ∧
    (default_driver_state vs_junk fs_junk).uniform_data = 0 ∧
    (default_driver_state vs_junk fs_junk).image_color = 0 ∧
    (default_driver_state vs_junk fs_junk).image_depth = 0 ∧
    (default_driver_state vs_junk fs_junk).num_vertices = 0 ∧
    (default_driver_state vs_junk fs_junk).floats_per_vertex = 0 ∧
    (default_driver_state vs_junk fs_junk).num_triangles = 0 ∧
    (default_driver_state vs_junk fs_junk).image_width = 0 ∧
    (default_driver_state vs_junk fs_junk).image_height = 0 ∧
    (default_driver_state vs_junk fs_junk).image_len = 0 ∧
    (default_driver_state vs_junk fs_junk).vertex_shader = vs_junk ∧
    (default_driver_state vs_junk fs_junk).fragment_shader = fs_junk ∧
    (∃ j₁ j₂ : Nat,
      (default_driver_state j₁ j₂).vertex_shader ≠ 0 ∧
      (default_driver_state j₁ j₂).fragment_shader ≠ 0) := by
  refine ⟨rfl, rfl, rfl, rfl, rfl, rfl, rfl, rfl, rfl, rfl, rfl, rfl, rfl,
    ⟨1, 1, ?_, ?_⟩⟩ <;> decide

/-- Claim C1, counterexample: under the strict-greater depth test, two
fragments of exactly equal interpolated depth at a pixel leave the
LATER-assembled fragment's color in the framebuffer, not the earlier one's:
processing a red fragment at depth 0 and then a green fragment at depth 0
against a fresh pixel ends green, and green is not red. -/
theorem C1_counterexample :
    ([((⟨255, 0, 0, 255⟩ : pixel), (0 : ℚ)),
      ((⟨0, 255, 0, 255⟩ : pixel), (0 : ℚ))].foldl
        depth_write (black, FLT_MAX)).1 = (⟨0, 255, 0, 255⟩ : pixel) ∧
    (⟨0, 255, 0, 255⟩ : pixel) ≠ (⟨255, 0, 0, 255⟩ : pixel) := by
  have h1 : depth_write (black, FLT_MAX) ((⟨255, 0, 0, 255⟩ : pixel), (0 : ℚ)) =
      ((⟨255, 0, 0, 255⟩ : pixel), (0 : ℚ)) := by
    simp only [depth_write]
    rw [if_neg (by norm_num [FLT_MAX])]
  have h2 : depth_write ((⟨255, 0, 0, 255⟩ : pixel), (0 : ℚ))
      ((⟨0, 255, 0, 255⟩ : pixel), (0 : ℚ)) =
      ((⟨0, 255, 0, 255⟩ : pixel), (0 : ℚ)) := by
    simp only [depth_write]
    rw [if_neg (by norm_num)]
  constructor
  · rw [List.foldl_cons, h1, List.foldl_cons, h2, List.foldl_nil]
  · decide

/-- Claim C1, amended: among the fragments produced at a pixel, in
assembly order, the one with the smallest interpolated depth determines the
final color, where exact depth ties are resolved in favor of the
LATER-assembled fragment (the strict-greater depth test passes on equality
and overwrites): if the fragment `f` has depth no greater than the initial
stored depth and than every earlier fragment, and strictly smaller than
every later fragment, the pixel ends holding exactly `f`. -/
theorem C1_depth_ordering (c₀ : pixel) (d₀ : ℚ) (l₁ l₂ : List (pixel × ℚ))
    (f : pixel × ℚ) (h₀ : f.2 ≤ d₀) (h₁ : ∀ g ∈ l₁, f.2 ≤ g.2)
    (h₂ : ∀ g ∈ l₂, f.2 < g.2) :
    (l₁ ++ f :: l₂).foldl depth_write (c₀, d₀) = f := by
  rw [List.foldl_append, List.foldl_cons]
  have hmem := depth_write_foldl_mem (c₀, d₀) l₁
  have hf : f.2 ≤ (l₁.foldl depth_write (c₀, d₀)).2 := by
    rcases List.mem_cons.mp hmem with h | h
    · rw [h]
      exact h₀
    · exact h₁ _ h
  have hstep : depth_write (l₁.foldl depth_write (c₀, d₀)) f = f := by
    simp only [depth_write]
    rw [if_neg (not_lt.mpr hf)]
  rw [hstep]
  exact depth_write_foldl_skip f l₂ h₂

/-- Claim C1 witness: with initial depth `FLT_MAX`, fragments red at depth
2, then green at depth 1, then blue at depth 3, the pixel ends green at
depth 1 — the smallest-depth fragment wins. -/
theorem C1_witness :
    ([((⟨255, 0, 0, 255⟩ : pixel), (2 : ℚ))] ++
        ((⟨0, 255, 0, 255⟩ : pixel), (1 : ℚ)) ::
        [((⟨0, 0, 255, 255⟩ : pixel), (3 : ℚ))]).foldl depth_write
      (black, FLT_MAX) = ((⟨0, 255, 0, 255⟩ : pixel), (1 : ℚ)) :=
  C1_depth_ordering black FLT_MAX _ _ _ (by norm_num [FLT_MAX])
    (by intro g hg; simp only [List.mem_singleton] at hg; rw [hg]; norm_num)
    (by intro g hg; simp only [List.mem_singleton] at hg; rw [hg]; norm_num)

/-- A triangle whose three vertices are all inside a face's half-space is
passed through the single-plane clipping step unchanged. -/
theorem clip_one_all_inside (cfg : raster_config) (t : tri_geo) (face : Nat)
    (h0 : inside_face face t.v0.gl_Position = true)
    (h1 : inside_face face t.v1.gl_Position = true)
    (h2 : inside_face face t.v2.gl_Position = true) :
    clip_one cfg t face = [t] := by
  simp only [clip_one, h0, h1, h2]

/-- Unfolding of the clipping recursion one face at a time: below face 6,
the delivered triangles are those of the single-plane step, each clipped
against the remaining faces. -/
theorem clip_deliveries_step (cfg : raster_config) (t : tri_geo) (face : Nat)
    (hface : face < 6) :
    clip_deliveries cfg t face =
      (clip_one cfg t face).flatMap
        (fun u => clip_deliveries cfg u (face + 1)) := by
  unfold clip_deliveries
  have h : 6 - face = (6 - (face + 1)) + 1 := by omega
  rw [h, clip_deliveries_aux]

/-- A triangle inside every remaining face is delivered unchanged, as the
one-element list holding it. -/
theorem clip_deliveries_aux_all_inside (cfg : raster_config) (t : tri_geo)
    (n : Nat) :
    ∀ face : Nat,
      (∀ f, face ≤ f → f < face + n →
        inside_face f t.v0.gl_Position = true ∧
        inside_face f t.v1.gl_Position = true ∧
        inside_face f t.v2.gl_Position = true) →
      clip_deliveries_aux cfg t n face = [t] := by
  induction n with
  | zero => intro face _; rfl
  | succ m ih =>
      intro face h
      have hf := h face (le_refl _) (by omega)
      rw [clip_deliveries_aux, clip_one_all_inside cfg t face hf.1 hf.2.1 hf.2.2]
      simp only [List.flatMap_cons, List.flatMap_nil, List.append_nil]
      exact ih (face + 1) (fun f hf1 hf2 => h f (by omega) (by omega))

/-- Claim C5: a triangle whose three vertices pass all six half-space
tests (a vertex exactly on a plane counting as inside) is delivered by
`clip_triangle` starting at face 0 to `rasterize_triangle` unchanged — the
delivered list is exactly the input triangle, with its positions and
attribute values — and at face 6 the triangle is passed straight to the
rasterizer, terminating the recursion. -/
theorem C5_inside_triangle_unclipped (s : driver_state) (t : tri_geo)
    (h : ∀ f, f < 6 →
      inside_face f t.v0.gl_Position = true ∧
      inside_face f t.v1.gl_Position = true ∧
      inside_face f t.v2.gl_Position = true) :
    clip_deliveries (config s) t 0 = [t] ∧
    clip_deliveries (config s) t 6 = [t] ∧
    clip_triangle s t 0 = rasterize_triangle s t ∧
    clip_triangle s t 6 = rasterize_triangle s t := by
  have h0 : clip_deliveries (config s) t 0 = [t] :=
    clip_deliveries_aux_all_inside (config s) t 6 0
      (fun f hf1 hf2 => h f (by omega))
  have h6 : clip_deliveries (config s) t 6 = [t] := rfl
  refine ⟨h0, h6, ?_, ?_⟩
  · rw [clip_triangle, h0, List.foldl_cons, List.foldl_nil]
  · rw [clip_triangle, h6, List.foldl_cons, List.foldl_nil]

/-- Claim C5 witness: on `inside_tri`, whose vertices lie strictly inside
the canonical volume (one on no plane, exercising the ≥ 0 test), clipping
from face 0 delivers exactly the input triangle and face 6 hands it to the
rasterizer. -/
theorem C5_witness :
    clip_deliveries (config base_state) inside_tri 0 = [inside_tri] ∧
    clip_deliveries (config base_state) inside_tri 6 = [inside_tri] ∧
    clip_triangle base_state inside_tri 0 =
      rasterize_triangle base_state inside_tri ∧
    clip_triangle base_state inside_tri 6 =
      rasterize_triangle base_state inside_tri :=
  C5_inside_triangle_unclipped base_state inside_tri (by
    intro f hf
    interval_cases f <;>
      exact ⟨by norm_num [inside_tri, inside_face, plane_value],
        by norm_num [inside_tri, inside_face, plane_value],
        by norm_num [inside_tri, inside_face, plane_value]⟩)

/-- Claim C3, counterexample: clipping `flat_clip_tri` (its first vertex
outside face 0, FLAT attribute 10; the other vertices inside, attributes 20
and 30) delivers two triangles whose first vertex is the ORIGINAL SECOND
vertex, so a fragment of the first delivered triangle receives the FLAT
value 20, not the value 10 stored at the first vertex of the original
primitive. -/
theorem C3_counterexample :
    clip_deliveries flat_cfg flat_clip_tri 0 =
      [flat_clipped_tri1, flat_clipped_tri2] ∧
    interpolate_fragment_at flat_cfg 0 flat_clipped_tri1
      (1 / 3, 1 / 3, 1 / 3) = 20 ∧
    flat_clip_tri.v0.data.getD 0 0 = 10 ∧ (20 : ℚ) ≠ 10 := by
  have h0 : inside_face 0 flat_clip_tri.v0.gl_Position = false := by
    norm_num [inside_face, plane_value, flat_clip_tri]
  have h1 : inside_face 0 flat_clip_tri.v1.gl_Position = true := by
    norm_num [inside_face, plane_value, flat_clip_tri]
  have h2 : inside_face 0 flat_clip_tri.v2.gl_Position = true := by
    norm_num [inside_face, plane_value, flat_clip_tri]
  have e1 : clip_one flat_cfg flat_clip_tri 0 =
      [flat_clipped_tri1, flat_clipped_tri2] := by
    simp only [clip_one, h0, h1, h2]
    norm_num [clip_vertex, lerp_vec4, interpolate_data, plane_value,
      flat_clip_tri, flat_cfg, flat_clipped_tri1, flat_clipped_tri2,
      List.range_succ, List.getD_cons_zero]
  have dstep : clip_deliveries flat_cfg flat_clip_tri 0 =
      clip_deliveries flat_cfg flat_clipped_tri1 1 ++
        clip_deliveries flat_cfg flat_clipped_tri2 1 := by
    rw [clip_deliveries_step flat_cfg flat_clip_tri 0 (by norm_num), e1]
    simp only [List.flatMap_cons, List.flatMap_nil, List.append_nil]
  have d1 : clip_deliveries flat_cfg flat_clipped_tri1 1 =
      [flat_clipped_tri1] := by
    refine clip_deliveries_aux_all_inside flat_cfg flat_clipped_tri1 5 1 ?_
    intro f hf1 hf2
    interval_cases f <;>
      exact ⟨by norm_num [inside_face, plane_value, flat_clipped_tri1],
        by norm_num [inside_face, plane_value, flat_clipped_tri1],
        by norm_num [inside_face, plane_value, flat_clipped_tri1]⟩
  have d2 : clip_deliveries flat_cfg flat_clipped_tri2 1 =
      [flat_clipped_tri2] := by
    refine clip_deliveries_aux_all_inside flat_cfg flat_clipped_tri2 5 1 ?_
    intro f hf1 hf2
    interval_cases f <;>
      exact ⟨by norm_num [inside_face, plane_value, flat_clipped_tri2],
        by norm_num [inside_face, plane_value, flat_clipped_tri2],
        by norm_num [inside_face, plane_value, flat_clipped_tri2]⟩
  refine ⟨by rw [dstep, d1, d2]; rfl, ?_, by norm_num [flat_clip_tri],
    by norm_num⟩
  simp [interpolate_fragment_at, flat_cfg, flat_clipped_tri1]

/-- Claim C3, amended: for an attribute index whose rule is FLAT, every
fragment of a triangle as presented to the rasterizer receives exactly the
value stored at the first vertex of THAT presented triangle, and every
vertex created by clipping receives the FLAT value of the clip-input
triangle's first vertex rather than an interpolation along the clipped
edge; but a clipped triangle's first vertex may be an original vertex other
than the primitive's first, so fragments of clipped triangles need not
receive the original primitive's first-vertex value. -/
theorem C3_flat_first_vertex (cfg : raster_config) (i : Nat)
    (h : cfg.interp_rules.getD i interp_type.flat = interp_type.flat) :
    (∀ t bary, interpolate_fragment_at cfg i t bary = t.v0.data.getD i 0) ∧
    (∀ first a b face, i < cfg.floats_per_vertex.toNat →
      (clip_vertex cfg first a b face).data.getD i 0 =
        first.data.getD i 0) := by
  constructor
  · intro t bary
    simp only [interpolate_fragment_at, h]
  · intro first a b face hi
    simp only [clip_vertex]
    rw [List.getD_eq_getElem?_getD, List.getElem?_map,
      List.getElem?_range hi]
    simp only [Option.map_some', Option.getD_some, h]

/-- Claim C3 witness on `flat_cfg` (one FLAT attribute float): every
fragment receives the presented triangle's first-vertex value and every
clip-created vertex receives the clip input's first-vertex value. -/
theorem C3_witness :
    (∀ t bary,
      interpolate_fragment_at flat_cfg 0 t bary = t.v0.data.getD 0 0) ∧
    (∀ first a b face, 0 < flat_cfg.floats_per_vertex.toNat →
      (clip_vertex flat_cfg first a b face).data.getD 0 0 =
        first.data.getD 0 0) :=
  C3_flat_first_vertex flat_cfg 0 (by decide)

/-- Claim C6: clipping one triangle against one plane with exactly two
vertices inside the half-space emits exactly the two triangles
{IN₀, IN₁, P₁} and {IN₀, P₁, P₀} — P₁ the intersection of edge (IN₁, OUT)
with the plane and P₀ the intersection of edge (IN₀, OUT) — and recurses on
both at face + 1, for each of the three positions of the outside vertex;
and with all three vertices outside it emits no triangle and does not
recurse. -/
theorem C6_single_plane_cases (cfg : raster_config) (t : tri_geo)
    (face : Nat) (hface : face < 6) :
    (inside_face face t.v0.gl_Position = true →
     inside_face face t.v1.gl_Position = true →
     inside_face face t.v2.gl_Position = false →
      clip_one cfg t face =
        [⟨t.v0, t.v1, clip_vertex cfg t.v0 t.v1 t.v2 face⟩,
         ⟨t.v0, clip_vertex cfg t.v0 t.v1 t.v2 face,
          clip_vertex cfg t.v0 t.v0 t.v2 face⟩] ∧
      clip_deliveries cfg t face =
        clip_deliveries cfg
          ⟨t.v0, t.v1, clip_vertex cfg t.v0 t.v1 t.v2 face⟩ (face + 1) ++
        clip_deliveries cfg
          ⟨t.v0, clip_vertex cfg t.v0 t.v1 t.v2 face,
           clip_vertex cfg t.v0 t.v0 t.v2 face⟩ (face + 1)) ∧
    (inside_face face t.v0.gl_Position = true →
     inside_face face t.v1.gl_Position = false →
     inside_face face t.v2.gl_Position = true →
      clip_one cfg t face =
        [⟨t.v0, t.v2, clip_vertex cfg t.v0 t.v2 t.v1 face⟩,
         ⟨t.v0, clip_vertex cfg t.v0 t.v2 t.v1 face,
          clip_vertex cfg t.v0 t.v0 t.v1 face⟩] ∧
      clip_deliveries cfg t face =
        clip_deliveries cfg
          ⟨t.v0, t.v2, clip_vertex cfg t.v0 t.v2 t.v1 face⟩ (face + 1) ++
        clip_deliveries cfg
          ⟨t.v0, clip_vertex cfg t.v0 t.v2 t.v1 face,
           clip_vertex cfg t.v0 t.v0 t.v1 face⟩ (face + 1)) ∧
    (inside_face face t.v0.gl_Position = false →
     inside_face face t.v1.gl_Position = true →
     inside_face face t.v2.gl_Position = true →
      clip_one cfg t face =
        [⟨t.v1, t.v2, clip_vertex cfg t.v0 t.v2 t.v0 face⟩,
         ⟨t.v1, clip_vertex cfg t.v0 t.v2 t.v0 face,
          clip_vertex cfg t.v0 t.v1 t.v0 face⟩] ∧
      clip_deliveries cfg t face =
        clip_deliveries cfg
          ⟨t.v1, t.v2, clip_vertex cfg t.v0 t.v2 t.v0 face⟩ (face + 1) ++
        clip_deliveries cfg
          ⟨t.v1, clip_vertex cfg t.v0 t.v2 t.v0 face,
           clip_vertex cfg t.v0 t.v1 t.v0 face⟩ (face + 1)) ∧
    (inside_face face t.v0.gl_Position = false →
     inside_face face t.v1.gl_Position = false →
     inside_face face t.v2.gl_Position = false →
      clip_one cfg t face = [] ∧ clip_deliveries cfg t face = []) := by
  refine ⟨?_, ?_, ?_, ?_⟩ <;> intro h0 h1 h2 <;>
    refine ⟨by simp only [clip_one, h0, h1, h2], ?_⟩ <;>
    rw [clip_deliveries_step cfg t face hface] <;>
    simp only [clip_one, h0, h1, h2, List.flatMap_cons, List.flatMap_nil,
      List.append_nil]

/-- Claim C6 witness on `flat_clip_tri` at face 0: vertex 0 lies outside
x ≥ −w and vertices 1 and 2 inside, so the two-inside split applies, and
the all-outside branch holds vacuously. -/
theorem C6_witness :
    (inside_face 0 flat_clip_tri.v0.gl_Position = true →
     inside_face 0 flat_clip_tri.v1.gl_Position = true →
     inside_face 0 flat_clip_tri.v2.gl_Position = false →
      clip_one flat_cfg flat_clip_tri 0 =
        [⟨flat_clip_tri.v0, flat_clip_tri.v1,
          clip_vertex flat_cfg flat_clip_tri.v0 flat_clip_tri.v1
            flat_clip_tri.v2 0⟩,
         ⟨flat_clip_tri.v0,
          clip_vertex flat_cfg flat_clip_tri.v0 flat_clip_tri.v1
            flat_clip_tri.v2 0,
          clip_vertex flat_cfg flat_clip_tri.v0 flat_clip_tri.v0
            flat_clip_tri.v2 0⟩] ∧
      clip_deliveries flat_cfg flat_clip_tri 0 =
        clip_deliveries flat_cfg
          ⟨flat_clip_tri.v0, flat_clip_tri.v1,
           clip_vertex flat_cfg flat_clip_tri.v0 flat_clip_tri.v1
             flat_clip_tri.v2 0⟩ 1 ++
        clip_deliveries flat_cfg
          ⟨flat_clip_tri.v0,
           clip_vertex flat_cfg flat_clip_tri.v0 flat_clip_tri.v1
             flat_clip_tri.v2 0,
           clip_vertex flat_cfg flat_clip_tri.v0 flat_clip_tri.v0
             flat_clip_tri.v2 0⟩ 1) ∧
    (inside_face 0 flat_clip_tri.v0.gl_Position = true →
     inside_face 0 flat_clip_tri.v1.gl_Position = false →
     inside_face 0 flat_clip_tri.v2.gl_Position = true →
      clip_one flat_cfg flat_clip_tri 0 =
        [⟨flat_clip_tri.v0, flat_clip_tri.v2,
          clip_vertex flat_cfg flat_clip_tri.v0 flat_clip_tri.v2
            flat_clip_tri.v1 0⟩,
         ⟨flat_clip_tri.v0,
          clip_vertex flat_cfg flat_clip_tri.v0 flat_clip_tri.v2
            flat_clip_tri.v1 0,
          clip_vertex flat_cfg flat_clip_tri.v0 flat_clip_tri.v0
            flat_clip_tri.v1 0⟩] ∧
      clip_deliveries flat_cfg flat_clip_tri 0 =
        clip_deliveries flat_cfg
          ⟨flat_clip_tri.v0, flat_clip_tri.v2,
           clip_vertex flat_cfg flat_clip_tri.v0 flat_clip_tri.v2
             flat_clip_tri.v1 0⟩ 1 ++
        clip_deliveries flat_cfg
          ⟨flat_clip_tri.v0,
           clip_vertex flat_cfg flat_clip_tri.v0 flat_clip_tri.v2
             flat_clip_tri.v1 0,
           clip_vertex flat_cfg flat_clip_tri.v0 flat_clip_tri.v0
             flat_clip_tri.v1 0⟩ 1) ∧
    (inside_face 0 flat_clip_tri.v0.gl_Position = false →
     inside_face 0 flat_clip_tri.v1.gl_Position = true →
     inside_face 0 flat_clip_tri.v2.gl_Position = true →
      clip_one flat_cfg flat_clip_tri 0 =
        [⟨flat_clip_tri.v1, flat_clip_tri.v2,
          clip_vertex flat_cfg flat_clip_tri.v0 flat_clip_tri.v2
            flat_clip_tri.v0 0⟩,
         ⟨flat_clip_tri.v1,
          clip_vertex flat_cfg flat_clip_tri.v0 flat_clip_tri.v2
            flat_clip_tri.v0 0,
          clip_vertex flat_cfg flat_clip_tri.v0 flat_clip_tri.v1
            flat_clip_tri.v0 0⟩] ∧
      clip_deliveries flat_cfg flat_clip_tri 0 =
        clip_deliveries flat_cfg
          ⟨flat_clip_tri.v1, flat_clip_tri.v2,
           clip_vertex flat_cfg flat_clip_tri.v0 flat_clip_tri.v2
             flat_clip_tri.v0 0⟩ 1 ++
        clip_deliveries flat_cfg
          ⟨flat_clip_tri.v1,
           clip_vertex flat_cfg flat_clip_tri.v0 flat_clip_tri.v2
             flat_clip_tri.v0 0,
           clip_vertex flat_cfg flat_clip_tri.v0 flat_clip_tri.v1
             flat_clip_tri.v0 0⟩ 1) ∧
    (inside_face 0 flat_clip_tri.v0.gl_Position = false →
     inside_face 0 flat_clip_tri.v1.gl_Position = false →
     inside_face 0 flat_clip_tri.v2.gl_Position = false →
      clip_one flat_cfg flat_clip_tri 0 = [] ∧
      clip_deliveries flat_cfg flat_clip_tri 0 = []) :=
  C6_single_plane_cases flat_cfg flat_clip_tri 0 (by decide)

/-- Claim C4: for an attribute index whose rule is SMOOTH, the rasterizer
converts the screen-space barycentric weights (α, β, γ) to world-space
weights (α/w₀)/S, (β/w₁)/S, (γ/w₂)/S with S = α/w₀ + β/w₁ + γ/w₂ and
returns their combination with the three vertex attribute values; and the
resulting combination is affine in the world-space barycentric weights. -/
theorem C4_smooth_interpolation (cfg : raster_config) (i : Nat) (t : tri_geo)
    (bary : ℚ × ℚ × ℚ)
    (h : cfg.interp_rules.getD i interp_type.flat = interp_type.smooth) :
    (interpolate_fragment_at cfg i t bary =
      bary.1 / t.v0.gl_Position.w /
          (bary.1 / t.v0.gl_Position.w + bary.2.1 / t.v1.gl_Position.w +
            bary.2.2 / t.v2.gl_Position.w) * t.v0.data.getD i 0 +
        bary.2.1 / t.v1.gl_Position.w /
          (bary.1 / t.v0.gl_Position.w + bary.2.1 / t.v1.gl_Position.w +
            bary.2.2 / t.v2.gl_Position.w) * t.v1.data.getD i 0 +
        bary.2.2 / t.v2.gl_Position.w /
          (bary.1 / t.v0.gl_Position.w + bary.2.1 / t.v1.gl_Position.w +
            bary.2.2 / t.v2.gl_Position.w) * t.v2.data.getD i 0) ∧
    (∀ (u v : ℚ × ℚ × ℚ) (c : ℚ),
      interpolate_world i t
        (c * u.1 + (1 - c) * v.1, c * u.2.1 + (1 - c) * v.2.1,
          c * u.2.2 + (1 - c) * v.2.2) =
        c * interpolate_world i t u + (1 - c) * interpolate_world i t v) := by
  constructor
  · simp only [interpolate_fragment_at, h, interpolate_world,
      convert_from_screen]
  · intro u v c
    simp only [interpolate_world]
    ring

/-- Claim C4 witness on `smooth_cfg` and `smooth_tri` at screen weights
(½, ¼, ¼): w-components 1, 2, 4 give S = ½/1 + ¼/2 + ¼/4 and the stated
world-space combination of the attributes 10, 20, 30, which is also affine
in the world-space weights. -/
theorem C4_witness :
    (interpolate_fragment_at smooth_cfg 0 smooth_tri (1 / 2, 1 / 4, 1 / 4) =
      (1 : ℚ) / 2 / smooth_tri.v0.gl_Position.w /
          ((1 : ℚ) / 2 / smooth_tri.v0.gl_Position.w +
            (1 : ℚ) / 4 / smooth_tri.v1.gl_Position.w +
            (1 : ℚ) / 4 / smooth_tri.v2.gl_Position.w) *
          smooth_tri.v0.data.getD 0 0 +
        (1 : ℚ) / 4 / smooth_tri.v1.gl_Position.w /
          ((1 : ℚ) / 2 / smooth_tri.v0.gl_Position.w +
            (1 : ℚ) / 4 / smooth_tri.v1.gl_Position.w +
            (1 : ℚ) / 4 / smooth_tri.v2.gl_Position.w) *
          smooth_tri.v1.data.getD 0 0 +
        (1 : ℚ) / 4 / smooth_tri.v2.gl_Position.w /
          ((1 : ℚ) / 2 / smooth_tri.v0.gl_Position.w +
            (1 : ℚ) / 4 / smooth_tri.v1.gl_Position.w +
            (1 : ℚ) / 4 / smooth_tri.v2.gl_Position.w) *
          smooth_tri.v2.data.getD 0 0) ∧
    (∀ (u v : ℚ × ℚ × ℚ) (c : ℚ),
      interpolate_world 0 smooth_tri
        (c * u.1 + (1 - c) * v.1, c * u.2.1 + (1 - c) * v.2.1,
          c * u.2.2 + (1 - c) * v.2.2) =
        c * interpolate_world 0 smooth_tri u +
          (1 - c) * interpolate_world 0 smooth_tri v) :=
  C4_smooth_interpolation smooth_cfg 0 smooth_tri (1 / 2, 1 / 4, 1 / 4)
    (by decide)

/-- A vertex's attribute slice has exactly `floats_per_vertex` entries when
the interleaved array extends past it. -/
theorem vertex_in_length (s : driver_state) (i : Nat)
    (h : (i + 1) * s.floats_per_vertex.toNat ≤ s.vertex_data.length) :
    (vertex_in s i).length = s.floats_per_vertex.toNat := by
  simp only [vertex_in, List.length_take, List.length_drop]
  rw [add_mul, one_mul] at h
  generalize i * s.floats_per_vertex.toNat = k at h ⊢
  omega

/-- Reading `F` floats starting at offset m·F from the concatenation of
chunks of length `F` each yields the m-th chunk. -/
theorem vertex_in_flatten (F : Nat) (cs : List (List ℚ))
    (hall : ∀ c ∈ cs, c.length = F) :
    ∀ m, m < cs.length → (cs.flatten.drop (m * F)).take F = cs.getD m [] := by
  induction cs with
  | nil => intro m hm; simp at hm
  | cons c rest ih =>
      intro m hm
      have hc : c.length = F := hall c (List.mem_cons_self c rest)
      match m with
      | 0 =>
          simp only [List.flatten_cons, Nat.zero_mul, List.drop_zero,
            List.getD_cons_zero]
          rw [← hc, List.take_left]
      | Nat.succ k =>
          simp only [List.flatten_cons, List.getD_cons_succ]
          have harith : (k + 1) * F = c.length + k * F := by rw [hc]; ring
          rw [harith, List.drop_append]
          exact ih (fun c' hc' => hall c' (List.mem_cons_of_mem _ hc')) k
            (by simpa using hm)

/-- The fan-to-list chunk list holds three slices per fan triangle. -/
theorem fan_list_chunks_length (s : driver_state) (n : Nat) :
    (fan_list_chunks s n).length = 3 * n := by
  induction n with
  | zero => rfl
  | succ m ih =>
      show (fan_list_chunks s m ++ _).length = _
      rw [List.length_append, ih]
      simp
      ring

/-- Every slice in the fan-to-list chunk list has `floats_per_vertex`
entries, provided the interleaved array covers vertices 0 .. n+1. -/
theorem fan_list_chunks_all_length (s : driver_state) (n : Nat)
    (hbound : ∀ i, i ≤ n + 1 →
      (i + 1) * s.floats_per_vertex.toNat ≤ s.vertex_data.length) :
    ∀ c ∈ fan_list_chunks s n, c.length = s.floats_per_vertex.toNat := by
  induction n with
  | zero => intro c hc; simp [fan_list_chunks] at hc
  | succ m ih =>
      intro c hc
      have hsplit : c ∈ fan_list_chunks s m ∨
          c ∈ [vertex_in s 0, vertex_in s (m + 1), vertex_in s (m + 2)] := by
        have : fan_list_chunks s (m + 1) = fan_list_chunks s m ++
            [vertex_in s 0, vertex_in s (m + 1), vertex_in s (m + 2)] := rfl
        rw [this] at hc
        exact List.mem_append.mp hc
      rcases hsplit with hc' | hc'
      · exact ih (fun i hi => hbound i (by omega)) c hc'
      · simp only [List.mem_cons, List.not_mem_nil, or_false,
          List.mem_singleton] at hc'
        rcases hc' with hc' | hc' | hc' <;> rw [hc']
        · exact vertex_in_length s 0 (hbound 0 (by omega))
        · exact vertex_in_length s (m + 1) (hbound (m + 1) (by omega))
        · exact vertex_in_length s (m + 2) (hbound (m + 2) (by omega))

/-- The (3k+j)-th slice of the fan-to-list chunk list, for j < 3, is the
j-th vertex slice of the k-th fan triangle (v₀, v_{k+1}, v_{k+2}). -/
theorem fan_list_chunks_getD (s : driver_state) (n : Nat) :
    ∀ k j, k < n → j < 3 →
      (fan_list_chunks s n).getD (3 * k + j) [] =
        [vertex_in s 0, vertex_in s (k + 1), vertex_in s (k + 2)].getD j [] := by
  induction n with
  | zero => intro k j hk hj; exact absurd hk (by omega)
  | succ m ih =>
      intro k j hk hj
      have hunfold : fan_list_chunks s (m + 1) = fan_list_chunks s m ++
          [vertex_in s 0, vertex_in s (m + 1), vertex_in s (m + 2)] := rfl
      by_cases hkm : k < m
      · have hlt : 3 * k + j < (fan_list_chunks s m).length := by
          rw [fan_list_chunks_length]; omega
        rw [hunfold, List.getD_append _ _ _ _ hlt]
        exact ih k j hkm hj
      · have hkm' : k = m := by omega
        subst hkm'
        have hge : (fan_list_chunks s k).length ≤ 3 * k + j := by
          rw [fan_list_chunks_length]; omega
        rw [hunfold, List.getD_append_right _ _ _ _ hge,
          fan_list_chunks_length]
        have harith : 3 * k + j - 3 * k = j := by omega
        rw [harith]

/-- Rasterization reads only the configuration and the framebuffer and
writes only the framebuffer, so it leaves the configuration intact. -/
theorem rasterize_config_eq (s : driver_state) (t : tri_geo) :
    config (rasterize_triangle s t) = config s := rfl

/-- Two states agreeing on configuration and framebuffer still agree after
rasterizing the same triangle. -/
theorem rasterize_rel (s₁ s₂ : driver_state) (t : tri_geo)
    (hc : config s₁ = config s₂) (h1 : s₁.image_color = s₂.image_color)
    (h2 : s₁.image_depth = s₂.image_depth) :
    config (rasterize_triangle s₁ t) = config (rasterize_triangle s₂ t) ∧
    (rasterize_triangle s₁ t).image_color =
      (rasterize_triangle s₂ t).image_color ∧
    (rasterize_triangle s₁ t).image_depth =
      (rasterize_triangle s₂ t).image_depth := by
  refine ⟨by rw [rasterize_config_eq, rasterize_config_eq, hc], ?_, ?_⟩
  · show (rasterize_core (config s₁) (s₁.image_color, s₁.image_depth) t).1 =
      (rasterize_core (config s₂) (s₂.image_color, s₂.image_depth) t).1
    rw [hc, h1, h2]
  · show (rasterize_core (config s₁) (s₁.image_color, s₁.image_depth) t).2 =
      (rasterize_core (config s₂) (s₂.image_color, s₂.image_depth) t).2
    rw [hc, h1, h2]

/-- The rasterization fold preserves agreement on configuration and
framebuffer. -/
theorem foldl_rasterize_rel (l : List tri_geo) :
    ∀ s₁ s₂ : driver_state, config s₁ = config s₂ →
      s₁.image_color = s₂.image_color → s₁.image_depth = s₂.image_depth →
      config (l.foldl rasterize_triangle s₁) =
        config (l.foldl rasterize_triangle s₂) ∧
      (l.foldl rasterize_triangle s₁).image_color =
        (l.foldl rasterize_triangle s₂).image_color ∧
      (l.foldl rasterize_triangle s₁).image_depth =
        (l.foldl rasterize_triangle s₂).image_depth := by
  induction l with
  | nil => exact fun s₁ s₂ hc h1 h2 => ⟨hc, h1, h2⟩
  | cons t rest ih =>
      intro s₁ s₂ hc h1 h2
      simp only [List.foldl_cons]
      obtain ⟨hc', h1', h2'⟩ := rasterize_rel s₁ s₂ t hc h1 h2
      exact ih _ _ hc' h1' h2'

/-- Clipping and rasterizing one triangle preserves agreement on
configuration and framebuffer. -/
theorem clip_triangle_rel (s₁ s₂ : driver_state) (t : tri_geo) (face : Nat)
    (hc : config s₁ = config s₂) (h1 : s₁.image_color = s₂.image_color)
    (h2 : s₁.image_depth = s₂.image_depth) :
    config (clip_triangle s₁ t face) = config (clip_triangle s₂ t face) ∧
    (clip_triangle s₁ t face).image_color =
      (clip_triangle s₂ t face).image_color ∧
    (clip_triangle s₁ t face).image_depth =
      (clip_triangle s₂ t face).image_depth := by
  rw [clip_triangle, clip_triangle, hc]
  exact foldl_rasterize_rel _ s₁ s₂ hc h1 h2

/-- The per-triangle render fold preserves agreement on configuration and
framebuffer. -/
theorem foldl_clip_rel (l : List tri_geo) :
    ∀ s₁ s₂ : driver_state, config s₁ = config s₂ →
      s₁.image_color = s₂.image_color → s₁.image_depth = s₂.image_depth →
      config (l.foldl (fun st t => clip_triangle st t 0) s₁) =
        config (l.foldl (fun st t => clip_triangle st t 0) s₂) ∧
      (l.foldl (fun st t => clip_triangle st t 0) s₁).image_color =
        (l.foldl (fun st t => clip_triangle st t 0) s₂).image_color ∧
      (l.foldl (fun st t => clip_triangle st t 0) s₁).image_depth =
        (l.foldl (fun st t => clip_triangle st t 0) s₂).image_depth := by
  induction l with
  | nil => exact fun s₁ s₂ hc h1 h2 => ⟨hc, h1, h2⟩
  | cons t rest ih =>
      intro s₁ s₂ hc h1 h2
      simp only [List.foldl_cons]
      obtain ⟨hc', h1', h2'⟩ := clip_triangle_rel s₁ s₂ t 0 hc h1 h2
      exact ih _ _ hc' h1' h2'

/-- The attribute slice of vertex m in the fan-to-list stream is the m-th
chunk of the chunk list. -/
theorem fan_to_list_vertex_in (s : driver_state)
    (hlen : s.vertex_data.length =
      s.num_vertices.toNat * s.floats_per_vertex.toNat)
    (m : Nat) (hm : m < 3 * (s.num_vertices.toNat - 2)) :
    vertex_in (fan_to_list_state s) m =
      (fan_list_chunks s (s.num_vertices.toNat - 2)).getD m [] := by
  have hbase : vertex_in (fan_to_list_state s) m =
      ((fan_list_chunks s (s.num_vertices.toNat - 2)).flatten.drop
        (m * s.floats_per_vertex.toNat)).take s.floats_per_vertex.toNat := rfl
  rw [hbase]
  refine vertex_in_flatten s.floats_per_vertex.toNat _ ?_ m ?_
  · refine fan_list_chunks_all_length s _ ?_
    intro i hi
    rw [hlen]
    exact Nat.mul_le_mul (by omega) (le_refl _)
  · rw [fan_list_chunks_length]
    exact hm

/-- Claim C7: rendering a vertex stream of N ≥ 3 vertices as a FAN
assembles exactly the N − 2 triangles (v₀,v₁,v₂), (v₀,v₂,v₃), …,
(v₀,v_{N−2},v_{N−1}) — the same geometry, with the same shaders, rules and
uniforms, as the triangle-list stream listing those triangles — and the
resulting color and depth framebuffers are pixel-identical to rendering
that list with the triangle-list type. -/
theorem C7_fan_list_equivalence (s : driver_state) (hN : 3 ≤ s.num_vertices)
    (hlen : s.vertex_data.length =
      s.num_vertices.toNat * s.floats_per_vertex.toNat) :
    assembled_triangles s render_type.fan =
      assembled_triangles (fan_to_list_state s) render_type.triangle ∧
    (assembled_triangles s render_type.fan).length =
      s.num_vertices.toNat - 2 ∧
    (render s render_type.fan).image_color =
      (render (fan_to_list_state s) render_type.triangle).image_color ∧
    (render s render_type.fan).image_depth =
      (render (fan_to_list_state s) render_type.triangle).image_depth := by
  have hT : (fan_to_list_state s).num_vertices.toNat / 3 =
      s.num_vertices.toNat - 2 := by
    have h1 : (fan_to_list_state s).num_vertices =
        3 * (s.num_vertices - 2) := rfl
    rw [h1]
    omega
  have heq : assembled_triangles s render_type.fan =
      assembled_triangles (fan_to_list_state s) render_type.triangle := by
    show (List.range (s.num_vertices.toNat - 2)).map _ =
      (List.range ((fan_to_list_state s).num_vertices.toNat / 3)).map _
    rw [hT]
    refine List.map_congr_left ?_
    intro k hk
    rw [List.mem_range] at hk
    have e0 : shaded (fan_to_list_state s) (3 * k) = shaded s 0 := by
      have g0 := fan_list_chunks_getD s (s.num_vertices.toNat - 2) k 0
        (by omega) (by omega)
      simp only [Nat.add_zero, List.getD_cons_zero] at g0
      show s.vertex_shader (vertex_in (fan_to_list_state s) (3 * k))
          s.uniform_data =
        s.vertex_shader (vertex_in s 0) s.uniform_data
      rw [fan_to_list_vertex_in s hlen (3 * k) (by omega), g0]
    have e1 : shaded (fan_to_list_state s) (3 * k + 1) = shaded s (k + 1) := by
      have g1 := fan_list_chunks_getD s (s.num_vertices.toNat - 2) k 1
        (by omega) (by omega)
      simp only [List.getD_cons_succ, List.getD_cons_zero] at g1
      show s.vertex_shader (vertex_in (fan_to_list_state s) (3 * k + 1))
          s.uniform_data =
        s.vertex_shader (vertex_in s (k + 1)) s.uniform_data
      rw [fan_to_list_vertex_in s hlen (3 * k + 1) (by omega), g1]
    have e2 : shaded (fan_to_list_state s) (3 * k + 2) = shaded s (k + 2) := by
      have g2 := fan_list_chunks_getD s (s.num_vertices.toNat - 2) k 2
        (by omega) (by omega)
      simp only [List.getD_cons_succ, List.getD_cons_zero] at g2
      show s.vertex_shader (vertex_in (fan_to_list_state s) (3 * k + 2))
          s.uniform_data =
        s.vertex_shader (vertex_in s (k + 2)) s.uniform_data
      rw [fan_to_list_vertex_in s hlen (3 * k + 2) (by omega), g2]
    show (⟨shaded s 0, shaded s (k + 1), shaded s (k + 2)⟩ : tri_geo) =
      ⟨shaded (fan_to_list_state s) (3 * k),
       shaded (fan_to_list_state s) (3 * k + 1),
       shaded (fan_to_list_state s) (3 * k + 2)⟩
    rw [e0, e1, e2]
  have hlen2 : (assembled_triangles s render_type.fan).length =
      s.num_vertices.toNat - 2 := by
    show ((List.range (s.num_vertices.toNat - 2)).map _).length = _
    rw [List.length_map, List.length_range]
  have hrel := foldl_clip_rel (assembled_triangles s render_type.fan) s
    (fan_to_list_state s) rfl rfl rfl
  refine ⟨heq, hlen2, ?_, ?_⟩
  · rw [render, render, ← heq]
    exact hrel.2.1
  · rw [render, render, ← heq]
    exact hrel.2.2

/-- Claim C7 witness on `fan_state`, a three-vertex fan: the fan assembles
exactly one triangle, the same as the equivalent triangle-list stream, and
both renderings produce identical color and depth buffers. -/
theorem C7_witness :
    assembled_triangles fan_state render_type.fan =
      assembled_triangles (fan_to_list_state fan_state)
        render_type.triangle ∧
    (assembled_triangles fan_state render_type.fan).length =
      fan_state.num_vertices.toNat - 2 ∧
    (render fan_state render_type.fan).image_color =
      (render (fan_to_list_state fan_state) render_type.triangle).image_color ∧
    (render fan_state render_type.fan).image_depth =
      (render (fan_to_list_state fan_state) render_type.triangle).image_depth :=
  C7_fan_list_equivalence fan_state (by decide) rfl

/-- The rasterization fold leaves the image dimensions intact. -/
theorem foldl_rasterize_dims (l : List tri_geo) :
    ∀ s : driver_state,
      (l.foldl rasterize_triangle s).image_width = s.image_width ∧
      (l.foldl rasterize_triangle s).image_height = s.image_height ∧
      (l.foldl rasterize_triangle s).image_len = s.image_len := by
  induction l with
  | nil => exact fun s => ⟨rfl, rfl, rfl⟩
  | cons t rest ih =>
      intro s
      simp only [List.foldl_cons]
      obtain ⟨h1, h2, h3⟩ := ih (rasterize_triangle s t)
      exact ⟨h1, h2, h3⟩

/-- Clipping and rasterizing one triangle leaves the image dimensions
intact. -/
theorem clip_triangle_dims (s : driver_state) (t : tri_geo) (face : Nat) :
    (clip_triangle s t face).image_width = s.image_width ∧
    (clip_triangle s t face).image_height = s.image_height ∧
    (clip_triangle s t face).image_len = s.image_len := by
  rw [clip_triangle]
  exact foldl_rasterize_dims _ s

/-- The per-triangle render fold leaves the image dimensions intact. -/
theorem foldl_clip_dims (l : List tri_geo) :
    ∀ s : driver_state,
      (l.foldl (fun st t => clip_triangle st t 0) s).image_width =
        s.image_width ∧
      (l.foldl (fun st t => clip_triangle st t 0) s).image_height =
        s.image_height ∧
      (l.foldl (fun st t => clip_triangle st t 0) s).image_len =
        s.image_len := by
  induction l with
  | nil => exact fun s => ⟨rfl, rfl, rfl⟩
  | cons t rest ih =>
      intro s
      simp only [List.foldl_cons]
      obtain ⟨h1, h2, h3⟩ := ih (clip_triangle s t 0)
      obtain ⟨g1, g2, g3⟩ := clip_triangle_dims s t 0
      exact ⟨h1.trans g1, h2.trans g2, h3.trans g3⟩

/-- Claim C10: after a successful `initialize_render`, the invariant
image_len = image_width · image_height = W·H holds and the color and depth
buffers each hold exactly image_len entries; no pipeline operation
(`render`, `clip_triangle`, `rasterize_triangle`) changes image_width,
image_height or image_len; and indexing pixel (p, q) as q·image_width + p
stays within [0, W·H) for 0 ≤ p < W and 0 ≤ q < H. -/
theorem C10_framebuffer_invariants (s : driver_state) (w h : Int)
    (hw : 1 ≤ w) (hh : 1 ≤ h) :
    ((initialize_render s w h).1.image_len =
      (initialize_render s w h).1.image_width *
        (initialize_render s w h).1.image_height) ∧
    (initialize_render s w h).1.image_width = w ∧
    (initialize_render s w h).1.image_height = h ∧
    (initialize_render s w h).1.image_color.length =
      (initialize_render s w h).1.image_len.toNat ∧
    (initialize_render s w h).1.image_depth.length =
      (initialize_render s w h).1.image_len.toNat ∧
    (∀ (s' : driver_state) (ty : render_type),
      (render s' ty).image_width = s'.image_width ∧
      (render s' ty).image_height = s'.image_height ∧
      (render s' ty).image_len = s'.image_len) ∧
    (∀ (s' : driver_state) (t : tri_geo) (face : Nat),
      (clip_triangle s' t face).image_width = s'.image_width ∧
      (clip_triangle s' t face).image_height = s'.image_height ∧
      (clip_triangle s' t face).image_len = s'.image_len) ∧
    (∀ (s' : driver_state) (t : tri_geo),
      (rasterize_triangle s' t).image_width = s'.image_width ∧
      (rasterize_triangle s' t).image_height = s'.image_height ∧
      (rasterize_triangle s' t).image_len = s'.image_len) ∧
    (∀ p q : Int, 0 ≤ p → p < w → 0 ≤ q → q < h →
      0 ≤ q * w + p ∧ q * w + p < w * h) := by
  have hcond : ¬(w ≤ 0 ∨ h ≤ 0) := by omega
  have hinit : (initialize_render s w h).1 =
      init_image_depth (set_render_black
        { s with image_width := w, image_height := h,
                 image_len := w * h }) := by
    simp [initialize_render, hcond]
  refine ⟨?_, ?_, ?_, ?_, ?_, ?_, ?_, ?_, ?_⟩
  · rw [hinit]; rfl
  · rw [hinit]; rfl
  · rw [hinit]; rfl
  · rw [hinit]
    show (List.replicate (w * h).toNat black).length = (w * h).toNat
    rw [List.length_replicate]
  · rw [hinit]
    show (List.replicate (w * h).toNat FLT_MAX).length = (w * h).toNat
    rw [List.length_replicate]
  · intro s' ty
    rw [render]
    exact foldl_clip_dims _ s'
  · intro s' t face
    exact clip_triangle_dims s' t face
  · intro s' t
    exact ⟨rfl, rfl, rfl⟩
  · intro p q hp0 hpw hq0 hqh
    constructor
    · have := mul_nonneg hq0 (by omega : (0 : Int) ≤ w)
      omega
    · nlinarith

/-- Claim C10 witness at W = 2, H = 3 with pixel (1, 2). -/
theorem C10_witness :
    ((initialize_render base_state 2 3).1.image_len =
      (initialize_render base_state 2 3).1.image_width *
        (initialize_render base_state 2 3).1.image_height) ∧
    (initialize_render base_state 2 3).1.image_width = 2 ∧
    (initialize_render base_state 2 3).1.image_height = 3 ∧
    (initialize_render base_state 2 3).1.image_color.length =
      (initialize_render base_state 2 3).1.image_len.toNat ∧
    (initialize_render base_state 2 3).1.image_depth.length =
      (initialize_render base_state 2 3).1.image_len.toNat ∧
    (∀ (s' : driver_state) (ty : render_type),
      (render s' ty).image_width = s'.image_width ∧
      (render s' ty).image_height = s'.image_height ∧
      (render s' ty).image_len = s'.image_len) ∧
    (∀ (s' : driver_state) (t : tri_geo) (face : Nat),
      (clip_triangle s' t face).image_width = s'.image_width ∧
      (clip_triangle s' t face).image_height = s'.image_height ∧
      (clip_triangle s' t face).image_len = s'.image_len) ∧
    (∀ (s' : driver_state) (t : tri_geo),
      (rasterize_triangle s' t).image_width = s'.image_width ∧
      (rasterize_triangle s' t).image_height = s'.image_height ∧
      (rasterize_triangle s' t).image_len = s'.image_len) ∧
    (∀ p q : Int, 0 ≤ p → p < 2 → 0 ≤ q → q < 3 →
      0 ≤ q * 2 + p ∧ q * 2 + p < 2 * 3) :=
  C10_framebuffer_invariants base_state 2 3 (by decide) (by decide)

end Pipeline
